import Mathlib

/-!
Verification of the tealdeer core (an implementation of tldr in Rust).

The repository source available here is `src/main.rs`, which contains the
CLI driver `main`, `print_page`, the constants, and the unit test
`test_linetype_from_str`.  The modules `types`, `tokenizer`, `cache` and
`error` are declared in `main.rs` but their files are not part of the
source tree; the definitions below that embed them are modelled from the
specification (each such definition says so in its doc comment) and are
checked against the unit test that *is* in the source.

Strings are manipulated through their underlying character lists, so that
every definition reduces in the kernel and concrete instances can be
settled by `decide` / `rfl`.
-/

namespace Tealdeer

/-- The backtick character (code point 96). -/
def backtick : Char := Char.ofNat 96

/-- Modelled from the spec: the closed variant set `ClassifiedLine`
(`LineType` in the missing `types` module): `Empty`, `Title`,
`Description`, `ExampleText`, `ExampleCode`, `Other`. -/
inductive LineType where
  | Empty : LineType
  | Title : String → LineType
  | Description : String → LineType
  | ExampleText : String → LineType
  | ExampleCode : String → LineType
  | Other : String → LineType
deriving DecidableEq

/-- Trim surrounding whitespace from a character list (both ends). -/
def trimChars (l : List Char) : List Char :=
  ((l.dropWhile Char.isWhitespace).reverse.dropWhile Char.isWhitespace).reverse

/-- Modelled from the spec (step 1 of `classify`): strip a single trailing
carriage-return/line-feed pair if present; interior content untouched. -/
def stripNewline (l : List Char) : List Char :=
  match l.reverse with
  | '\n' :: '\r' :: rest => rest.reverse
  | _ => l

/-- Modelled from the spec: the classification function
`classify` (`LineType::from` in the missing `types` module), written on
the underlying character list.  Steps 2-7 of the spec, tried in order:
whitespace-only, `"# "`, `"> "`, `"- "`, backtick-delimited, other. -/
def classifyChars (l : List Char) : LineType :=
  let s := stripNewline l
  if s.all Char.isWhitespace then
    LineType.Empty
  else
    match s with
    | '#' :: ' ' :: rest => LineType.Title (String.mk (trimChars rest))
    | '>' :: ' ' :: rest => LineType.Description (String.mk (trimChars rest))
    | '-' :: ' ' :: rest => LineType.ExampleText (String.mk (trimChars rest))
    | _ =>
      if 2 ≤ s.length ∧ s.head? = some backtick ∧ s.getLast? = some backtick then
        LineType.ExampleCode (String.mk (s.drop 1).dropLast)
      else
        LineType.Other (String.mk s)

/-- Classification of one input line: `classify` on strings. -/
def classify (line : String) : LineType :=
  classifyChars line.data

/-- The seven-step reference definition of section 4.1 of the spec,
written independently with explicit prefix tests tried in priority
order. -/
def classifyRef (line : String) : LineType :=
  let s := stripNewline line.data
  if s.all Char.isWhitespace then
    LineType.Empty
  else if ['#', ' '].isPrefixOf s then
    LineType.Title (String.mk (trimChars (s.drop 2)))
  else if ['>', ' '].isPrefixOf s then
    LineType.Description (String.mk (trimChars (s.drop 2)))
  else if ['-', ' '].isPrefixOf s then
    LineType.ExampleText (String.mk (trimChars (s.drop 2)))
  else if 2 ≤ s.length ∧ s.head? = some backtick ∧ s.getLast? = some backtick then
    LineType.ExampleCode (String.mk (s.drop 1).dropLast)
  else
    LineType.Other (String.mk s)

/-- Modelled from the spec: the Tokenizer (the missing `tokenizer`
module) turns the sequence of input lines into the sequence of their
classifications, one per line, in input order, ending with the input. -/
def tokenize : List String → List LineType
  | [] => []
  | line :: rest => classify line :: tokenize rest

/-- Modelled from the spec: the `OperatingSystemTag` (`OsType` in the
missing `types` module): Linux, MacOS (`OsX`), SunOS, Other. -/
inductive OsType where
  | Linux : OsType
  | OsX : OsType
  | SunOS : OsType
  | Other : OsType
deriving DecidableEq

/-- From `main.rs`: the fixed archive URL. -/
def ARCHIVE_URL : String := "https://github.com/tldr-pages/tldr/archive/master.tar.gz"

/-- Modelled from the spec: the Cache is constructed from the configured
URL and OS tag (`Cache::new(ARCHIVE_URL, os)` in `main.rs`). -/
structure Cache where
  url : String
  os : OsType

/-- Modelled from the spec: the name of the OS-specific subdirectory of
the cache selected by each OS tag (the spec fixes `linux` for Linux; the
directory used for the `Other` tag is not constrained by any claim). -/
def osDir : OsType → String
  | OsType.Linux => "linux"
  | OsType.OsX => "osx"
  | OsType.SunOS => "sunos"
  | OsType.Other => "other"

/-- Path of a page in the OS-specific subdirectory: `<root>/<os>/<command>.md`. -/
def osPagePath (root : String) (os : OsType) (command : String) : String :=
  root ++ "/" ++ osDir os ++ "/" ++ command ++ ".md"

/-- Path of a page in the shared subdirectory: `<root>/common/<command>.md`. -/
def commonPagePath (root : String) (command : String) : String :=
  root ++ "/common/" ++ command ++ ".md"

/-- Modelled from the spec: `find_page` (in the missing `cache` module)
over an abstract filesystem given as the set of existing file paths:
search the OS-specific subdirectory first, then `common`, and return the
first existing `<command>.md`; `none` if neither exists.  No download is
performed: the result depends only on `pageExists`. -/
def find_page (pageExists : String → Bool) (root : String) (os : OsType)
    (command : String) : Option String :=
  if pageExists (osPagePath root os command) then some (osPagePath root os command)
  else if pageExists (commonPagePath root command) then some (commonPagePath root command)
  else none

/-- Modelled from the spec: `last_update` (in the missing `cache` module)
over abstract filesystem metadata: when the cache root exists, the
elapsed seconds since the root directory's last-modification time
(`now - rootMTime`); when it does not exist, `none`. -/
def last_update (rootExists : Bool) (rootMTime : Nat) (now : Nat) : Option Nat :=
  if rootExists then some (now - rootMTime) else none

/-- Modelled from the spec: the possible outcomes of the recursive
deletion of the cache root attempted by `clear`. -/
inductive DeleteOutcome where
  | success : DeleteOutcome
  | permissionDenied : String → DeleteOutcome
  | ioFailure : String → DeleteOutcome
deriving DecidableEq

/-- Modelled from the spec: `clear` (in the missing `cache` module):
recursively deletes the cache root; a permission or I/O failure during
deletion is a `CacheError` (carried as its message); deleting an
already-absent cache root is not a failure. -/
def clear (rootExists : Bool) (outcome : DeleteOutcome) : Except String Unit :=
  if rootExists then
    match outcome with
    | DeleteOutcome.success => Except.ok ()
    | DeleteOutcome.permissionDenied msg => Except.error msg
    | DeleteOutcome.ioFailure msg => Except.error msg
  else Except.ok ()

/-! ## The CLI driver, embedded from `main.rs`

`main` is embedded as a pure function from the parsed arguments and an
environment (the results that the cache manager, the filesystem and the
renderer would return for this invocation) to the list of diagnostic
lines printed by `main` itself and the process exit status.  Rendered
page content is produced by the external formatter and is outside this
model, as in the spec. -/

/-- From `main.rs`: the crate name. -/
def NAME : String := "tldr-rs"

/-- The crate version (`env!("CARGO_PKG_VERSION")`): the manifest is not
part of the available source and no claim depends on the value. -/
def VERSION : String := ""

/-- From `main.rs`: the usage text. -/
def USAGE : String :=
  "\nUsage:\n\n    tldr <command>\n    tldr [options]\n\nOptions:\n\n    -h --help           Show this screen\n    -v --version        Show version information\n    -l --list           List all commands in the cache\n    -f --render <file>  Render a specific markdown file\n    -o --os <type>      Override the operating system [linux, osx, sunos]\n    -u --update         Update the local cache\n    -c --clear-cache    Clear the local cache\n\nExamples:\n\n    $ tldr tar\n    $ tldr --list\n\nTo control the cache:\n\n    $ tldr --update\n    $ tldr --clear-cache\n\nTo render a local file (for testing):\n\n    $ tldr --render /path/to/file.md\n"

/-- From `main.rs`: the staleness threshold in seconds (30 days). -/
def MAX_CACHE_AGE : Int := 2592000

/-- From `main.rs`: the parsed command-line arguments (`struct Args`). -/
structure Args where
  arg_command : Option String
  flag_help : Bool
  flag_version : Bool
  flag_list : Bool
  flag_render : Option String
  flag_os : Option OsType
  flag_update : Bool
  flag_clear_cache : Bool

/-- The environment of one invocation: results of the effectful calls
`main` makes (cache clear/update, cache age, page lookup, and
`print_page` on a path, whose error carries the formatted
`Could not open file` message). -/
structure Env where
  clear_result : Except String Unit
  update_result : Except String Unit
  last_update : Option Int
  find_page : String → Option String
  print_page : String → Except String Unit

/-- From `main.rs` line 183: the first staleness warning line,
`format!` of `MAX_CACHE_AGE / 24 / 3600` days. -/
def staleWarning1 : String :=
  "Cache wasn't updated in " ++ toString (MAX_CACHE_AGE / 24 / 3600) ++ " days."

/-- From `main.rs` line 184: the second staleness warning line. -/
def staleWarning2 : String := "You should probably run `tldr --update` soon."

/-- From `main.rs` line 187: the missing-cache message. -/
def cacheNotFound : String := "Cache not found. Please run `tldr --update`."

/-- From `main.rs` lines 194-207: search the cache for the command and
print the page; embeds the `if let Some(path) = cache.find_page(..)`
block (page printed via the external formatter, not modelled). -/
def pageLookup (env : Env) (command : String) (log : List String) :
    List String × Nat :=
  match env.find_page command with
  | some path =>
    match env.print_page path with
    | Except.error msg => (log ++ [msg], 1)
    | Except.ok _ => (log, 0)
  | none =>
    (log ++ ["Page " ++ command ++ " not found in cache",
             "Try updating with `tldr --update`, or submit a pull request to:",
             "https://github.com/tldr-pages/tldr"], 1)

/-- From `main.rs` lines 177-208: the `if let Some(command)` block:
unless `--update` was given, check the cache age first (warn when older
than `MAX_CACHE_AGE`, abort with status 1 when the cache is missing),
then look the page up. -/
def showCommand (flagUpdate : Bool) (env : Env) (command : String)
    (log : List String) : List String × Nat :=
  if !flagUpdate then
    match env.last_update with
    | some ago =>
      if ago > MAX_CACHE_AGE then
        pageLookup env command (log ++ [staleWarning1, staleWarning2])
      else
        pageLookup env command log
    | none => (log ++ [cacheNotFound], 1)
  else
    pageLookup env command log

/-- The `main` function of `main.rs`, lines 117-215, as a pure function:
version; clear cache (pass through); update cache (pass through); render
file; list; show command; usage fallback.  Returns the diagnostic lines
printed and the exit status (`process::exit` argument, 0 when `main`
returns normally). -/
def mainRun (args : Args) (env : Env) : List String × Nat :=
  if args.flag_version then
    ([NAME ++ " v" ++ VERSION], 0)
  else
    match (if args.flag_clear_cache then env.clear_result else Except.ok ()) with
    | Except.error msg => (["Could not delete cache: " ++ msg], 1)
    | Except.ok _ =>
      let log1 : List String :=
        if args.flag_clear_cache then ["Successfully deleted cache."] else []
      match (if args.flag_update then env.update_result else Except.ok ()) with
      | Except.error msg => (log1 ++ ["Could not update cache: " ++ msg], 1)
      | Except.ok _ =>
        let log2 : List String :=
          log1 ++ (if args.flag_update then ["Successfully updated cache."] else [])
        match args.flag_render with
        | some file =>
          match env.print_page file with
          | Except.error msg => (log2 ++ [msg], 1)
          | Except.ok _ => (log2, 0)
        | none =>
          if args.flag_list then
            (log2 ++ ["Flag --list not yet implemented."], 1)
          else
            match args.arg_command with
            | some command => showCommand args.flag_update env command log2
            | none =>
              if !(args.flag_update || args.flag_clear_cache) then
                (log2 ++ [USAGE], 1)
              else
                (log2, 0)

/-- The filesystem of the spec's `find_page` example: a cache root
`/cache` containing exactly `linux/foo.md` and `common/bar.md`. -/
def exampleFs : String → Bool := fun p =>
  p == "/cache/linux/foo.md" || p == "/cache/common/bar.md"

/-- Arguments of a plain `tldr tar` invocation. -/
def argsCmd : Args :=
  { arg_command := some "tar", flag_help := false, flag_version := false,
    flag_list := false, flag_render := none, flag_os := none,
    flag_update := false, flag_clear_cache := false }

/-- Arguments of a bare `tldr` invocation (no flag, no command). -/
def argsNone : Args :=
  { arg_command := none, flag_help := false, flag_version := false,
    flag_list := false, flag_render := none, flag_os := none,
    flag_update := false, flag_clear_cache := false }

/-- Arguments of a `tldr --update tar` invocation. -/
def argsUpdateCmd : Args :=
  { arg_command := some "tar", flag_help := false, flag_version := false,
    flag_list := false, flag_render := none, flag_os := none,
    flag_update := true, flag_clear_cache := false }

/-- Arguments of a `tldr --list` invocation. -/
def argsList : Args :=
  { arg_command := none, flag_help := false, flag_version := false,
    flag_list := true, flag_render := none, flag_os := none,
    flag_update := false, flag_clear_cache := false }

/-- An environment where every cache operation succeeds, the cache age
is fresh, and no page exists. -/
def envOk : Env :=
  { clear_result := Except.ok (), update_result := Except.ok (),
    last_update := some 0, find_page := fun _ => none,
    print_page := fun _ => Except.ok () }

/-- An environment whose cache is one second past the staleness
threshold. -/
def envStale : Env :=
  { clear_result := Except.ok (), update_result := Except.ok (),
    last_update := some 2592001, find_page := fun _ => none,
    print_page := fun _ => Except.ok () }

/-! ## Theorems -/

theorem isPrefixOf_pair (a b : Char) (s : List Char) :
    [a, b].isPrefixOf s = true ↔ ∃ t, s = a :: b :: t := by
  cases s with
  | nil => simp [List.isPrefixOf]
  | cons c1 t1 =>
    cases t1 with
    | nil => simp [List.isPrefixOf]
    | cons c2 t2 =>
      simp [List.isPrefixOf]
      constructor
      · rintro ⟨h1, h2⟩
        exact ⟨h1.symm, h2.symm⟩
      · rintro ⟨h1, h2⟩
        exact ⟨h1.symm, h2.symm⟩

theorem classify_eq_classifyRef (line : String) : classify line = classifyRef line := by
  unfold classify classifyChars classifyRef
  simp only []
  by_cases hws : (stripNewline line.data).all Char.isWhitespace
  · simp [hws]
  · simp only [hws, if_false, Bool.false_eq_true, ite_false]
    split
    · rename_i rest heq
      rw [heq]
      simp [List.isPrefixOf]
    · rename_i rest heq
      rw [heq]
      simp [List.isPrefixOf]
    · rename_i rest heq
      rw [heq]
      simp [List.isPrefixOf]
    · rename_i hn1 hn2 hn3
      have p1 : ['#', ' '].isPrefixOf (stripNewline line.data) = false := by
        by_contra h
        rw [Bool.not_eq_false, isPrefixOf_pair] at h
        obtain ⟨t, ht⟩ := h
        exact hn1 t ht
      have p2 : ['>', ' '].isPrefixOf (stripNewline line.data) = false := by
        by_contra h
        rw [Bool.not_eq_false, isPrefixOf_pair] at h
        obtain ⟨t, ht⟩ := h
        exact hn2 t ht
      have p3 : ['-', ' '].isPrefixOf (stripNewline line.data) = false := by
        by_contra h
        rw [Bool.not_eq_false, isPrefixOf_pair] at h
        obtain ⟨t, ht⟩ := h
        exact hn3 t ht
      simp [p1, p2, p3]

/-- C1: `classify` equals the seven-step reference definition of section
4.1 of the spec — rules tried in priority order, first match winning
(so a line opening with a backtick that does not close with one falls to
`Other`, leading backtick preserved) — and agrees with every assertion
of the source unit test `test_linetype_from_str`. -/
theorem classify_seven_step_reference :
    (∀ line : String, classify line = classifyRef line) ∧
    classify "" = LineType.Empty ∧
    classify " \n \r" = LineType.Empty ∧
    classify "# Hello there" = LineType.Title "Hello there" ∧
    classify "> tis a description \n" = LineType.Description "tis a description" ∧
    classify "- some command" = LineType.ExampleText "some command" ∧
    classify "`$ cargo run`" = LineType.ExampleCode "$ cargo run" ∧
    classify "`$ cargo run" = LineType.Other "`$ cargo run" ∧
    classify "jklö" = LineType.Other "jklö" :=
  ⟨classify_eq_classifyRef, by decide, by decide, by decide, by decide,
   by decide, by decide, by decide, by decide⟩

/-- C2: `classify` is total and deterministic — every input, the empty
string, whitespace-only and non-ASCII content included, is mapped to
exactly one `LineType` value, and content recognized by no rule degrades
to `Other` of the (newline-stripped) content instead of failing. -/
theorem classify_total_deterministic :
    (∀ s : String, ∃! r : LineType, classify s = r) ∧
    (∀ s : String,
      (stripNewline s.data).all Char.isWhitespace = false →
      ['#', ' '].isPrefixOf (stripNewline s.data) = false →
      ['>', ' '].isPrefixOf (stripNewline s.data) = false →
      ['-', ' '].isPrefixOf (stripNewline s.data) = false →
      ¬(2 ≤ (stripNewline s.data).length ∧
          (stripNewline s.data).head? = some backtick ∧
          (stripNewline s.data).getLast? = some backtick) →
      classify s = LineType.Other (String.mk (stripNewline s.data))) ∧
    classify "" = LineType.Empty ∧
    classify " \n \r" = LineType.Empty ∧
    classify "jklö" = LineType.Other "jklö" := by
  refine ⟨fun s => ⟨classify s, rfl, fun r h => h.symm⟩, ?_, by decide, by decide, by decide⟩
  intro s hws h1 h2 h3 hbt
  rw [classify_eq_classifyRef]
  unfold classifyRef
  simp [hws, h1, h2, h3, hbt]

/-- C2 witness: the no-rule conjunct applied to the concrete non-ASCII
line of the source unit test. -/
theorem classify_total_deterministic_witness :
    classify "jklö" = LineType.Other (String.mk (stripNewline "jklö".data)) :=
  classify_total_deterministic.2.1 "jklö" (by decide) (by decide) (by decide)
    (by decide) (by decide)

/-- C7: the Tokenizer yields exactly one classified line per input line,
in input order, and its output is exhausted exactly with the input. -/
theorem tokenizer_one_per_line :
    (∀ lines : List String, (tokenize lines).length = lines.length) ∧
    (∀ (lines : List String) (i : Nat),
      (tokenize lines)[i]? = (lines[i]?).map classify) ∧
    tokenize [] = [] := by
  refine ⟨?_, ?_, rfl⟩
  · intro lines
    induction lines with
    | nil => rfl
    | cons l rest ih => simp [tokenize, ih]
  · intro lines
    induction lines with
    | nil => intro i; simp [tokenize]
    | cons l rest ih =>
      intro i
      cases i with
      | zero => simp [tokenize]
      | succ n => simpa [tokenize] using ih n

/-- C3: `find_page` searches the OS-specific subdirectory first, then
`common`, returns the first existing `<command>.md`, `none` when neither
exists, and on a cold (empty) cache returns `none` for every command
name without error or download — the result depends on nothing but the
existing-path predicate. -/
theorem find_page_search_order :
    (∀ (ex : String → Bool) (root : String) (os : OsType) (c : String),
      ex (osPagePath root os c) = true →
      find_page ex root os c = some (osPagePath root os c)) ∧
    (∀ (ex : String → Bool) (root : String) (os : OsType) (c : String),
      ex (osPagePath root os c) = false → ex (commonPagePath root c) = true →
      find_page ex root os c = some (commonPagePath root c)) ∧
    (∀ (ex : String → Bool) (root : String) (os : OsType) (c : String),
      ex (osPagePath root os c) = false → ex (commonPagePath root c) = false →
      find_page ex root os c = none) ∧
    (∀ (root : String) (os : OsType) (c : String),
      find_page (fun _ => false) root os c = none) := by
  refine ⟨?_, ?_, ?_, ?_⟩ <;> intros <;> simp [find_page, *]

/-- C3 witness: the spec's example — a cache root holding exactly
`linux/foo.md` and `common/bar.md`, OS tag Linux: `foo` resolves to the
linux path, `bar` to the common path, `missing` to `none`. -/
theorem find_page_search_order_witness :
    find_page exampleFs "/cache" OsType.Linux "foo"
        = some (osPagePath "/cache" OsType.Linux "foo") ∧
    find_page exampleFs "/cache" OsType.Linux "bar"
        = some (commonPagePath "/cache" "bar") ∧
    find_page exampleFs "/cache" OsType.Linux "missing" = none :=
  ⟨find_page_search_order.1 exampleFs "/cache" OsType.Linux "foo" (by decide),
   find_page_search_order.2.1 exampleFs "/cache" OsType.Linux "bar" (by decide) (by decide),
   find_page_search_order.2.2.1 exampleFs "/cache" OsType.Linux "missing" (by decide) (by decide)⟩

/-- C6: `last_update` returns `some` of the elapsed seconds since the
cache root's last modification when the root exists (so a freshly
modified root reports age zero), and `none` exactly when the root does
not exist. -/
theorem last_update_elapsed :
    (∀ m now : Nat, last_update true m now = some (now - m)) ∧
    (∀ m now : Nat, last_update false m now = none) ∧
    (∀ now : Nat, last_update true now now = some 0) ∧
    (∀ (ex : Bool) (m now : Nat), last_update ex m now = none ↔ ex = false) := by
  refine ⟨fun m now => rfl, fun m now => rfl, fun now => by simp [last_update], ?_⟩
  intro ex m now
  cases ex <;> simp [last_update]

/-- C8: `clear` succeeds when deletion succeeds, succeeds when the cache
root is already absent, and returns a `CacheError` exactly when deletion
of an existing root hits a permission or I/O failure. -/
theorem clear_semantics :
    (∀ outcome : DeleteOutcome, clear false outcome = Except.ok ()) ∧
    clear true DeleteOutcome.success = Except.ok () ∧
    (∀ msg : String, clear true (DeleteOutcome.permissionDenied msg) = Except.error msg) ∧
    (∀ msg : String, clear true (DeleteOutcome.ioFailure msg) = Except.error msg) ∧
    (∀ (rootExists : Bool) (outcome : DeleteOutcome) (msg : String),
      clear rootExists outcome = Except.error msg →
      rootExists = true ∧ (outcome = DeleteOutcome.permissionDenied msg ∨
        outcome = DeleteOutcome.ioFailure msg)) := by
  refine ⟨fun o => rfl, rfl, fun msg => rfl, fun msg => rfl, ?_⟩
  intro rootExists outcome msg h
  cases rootExists <;> cases outcome <;> simp_all [clear]

/-- C8 witness: the error characterization applied to a concrete failed
deletion. -/
theorem clear_semantics_witness :
    true = true ∧
      (DeleteOutcome.permissionDenied "denied" = DeleteOutcome.permissionDenied "denied" ∨
       DeleteOutcome.permissionDenied "denied" = DeleteOutcome.ioFailure "denied") :=
  clear_semantics.2.2.2.2 true (DeleteOutcome.permissionDenied "denied") "denied" rfl

/-- C10: with `--list` and no `--render`, once any requested clear and
update completed successfully, `main` prints that `--list` is not yet
implemented and exits with status 1 — the full output is the
pass-through messages plus that single line, so no command enumeration
ever happens. -/
theorem list_flag_unimplemented :
    ∀ (args : Args) (env : Env),
      args.flag_version = false →
      env.clear_result = Except.ok () →
      env.update_result = Except.ok () →
      args.flag_render = none →
      args.flag_list = true →
      mainRun args env =
        ((if args.flag_clear_cache then ["Successfully deleted cache."] else []) ++
         (if args.flag_update then ["Successfully updated cache."] else []) ++
         ["Flag --list not yet implemented."], 1) := by
  intro args env hv hc hu hr hl
  cases hcc : args.flag_clear_cache <;> cases huu : args.flag_update <;>
    simp [mainRun, hv, hc, hu, hr, hl, hcc, huu]

/-- C10 witness: a concrete `tldr --list` invocation. -/
theorem list_flag_unimplemented_witness :
    mainRun argsList envOk =
      ((if argsList.flag_clear_cache then ["Successfully deleted cache."] else []) ++
       (if argsList.flag_update then ["Successfully updated cache."] else []) ++
       ["Flag --list not yet implemented."], 1) :=
  list_flag_unimplemented argsList envOk rfl rfl rfl rfl rfl

/-- C9: with `--update` and a command name, the cache-freshness check is
bypassed: the result never depends on the reported cache age (so neither
the `Cache not found` exit branch nor the staleness warning is
reachable), and after a successful update the page lookup proceeds
directly. -/
theorem update_bypasses_freshness_check :
    (∀ (args : Args) (env : Env) (lu : Option Int),
      args.flag_update = true →
      mainRun args { env with last_update := lu } = mainRun args env) ∧
    (∀ (args : Args) (env : Env) (c : String),
      args.flag_version = false →
      env.clear_result = Except.ok () →
      args.flag_update = true →
      env.update_result = Except.ok () →
      args.flag_render = none →
      args.flag_list = false →
      args.arg_command = some c →
      mainRun args env =
        pageLookup env c
          ((if args.flag_clear_cache then ["Successfully deleted cache."] else []) ++
           ["Successfully updated cache."])) := by
  constructor
  · intro args env lu hu
    cases env
    simp [mainRun, showCommand, pageLookup, hu]
  · intro args env c hv hc hu hup hr hl hcmd
    cases hcc : args.flag_clear_cache <;>
      simp [mainRun, showCommand, hv, hc, hu, hup, hr, hl, hcmd, hcc]

/-- C9 witness: a concrete `tldr --update tar` invocation. -/
theorem update_bypasses_freshness_check_witness :
    mainRun argsUpdateCmd envOk =
      pageLookup envOk "tar"
        ((if argsUpdateCmd.flag_clear_cache then ["Successfully deleted cache."] else []) ++
         ["Successfully updated cache."]) :=
  update_bypasses_freshness_check.2 argsUpdateCmd envOk "tar" rfl rfl rfl rfl rfl rfl rfl

/-- C5: the staleness threshold is enforced by the caller, with the
default threshold of 2,592,000 seconds (30 days): when the reported age
exceeds it, `main` prints the two warning lines telling the user to run
update and still proceeds to the page lookup; when the age is `none`
(cache missing), `main` prints the run-update instruction and exits with
status 1 without consulting the page lookup — no fetch happens in
either case, the result being fully determined by the lookup-free data
above. -/
theorem staleness_enforced_by_caller :
    MAX_CACHE_AGE = 2592000 ∧
    staleWarning1 = "Cache wasn't updated in 30 days." ∧
    (∀ (args : Args) (env : Env) (c : String) (ago : Int),
      args.flag_version = false →
      env.clear_result = Except.ok () →
      args.flag_update = false →
      args.flag_render = none →
      args.flag_list = false →
      args.arg_command = some c →
      env.last_update = some ago →
      ago > MAX_CACHE_AGE →
      mainRun args env =
        pageLookup env c
          ((if args.flag_clear_cache then ["Successfully deleted cache."] else []) ++
           [staleWarning1, staleWarning2])) ∧
    (∀ (args : Args) (env : Env) (c : String),
      args.flag_version = false →
      env.clear_result = Except.ok () →
      args.flag_update = false →
      args.flag_render = none →
      args.flag_list = false →
      args.arg_command = some c →
      env.last_update = none →
      mainRun args env =
        ((if args.flag_clear_cache then ["Successfully deleted cache."] else []) ++
         [cacheNotFound], 1)) := by
  refine ⟨rfl, by decide, ?_, ?_⟩
  · intro args env c ago hv hc hu hr hl hcmd hlu hago
    cases hcc : args.flag_clear_cache <;>
      simp [mainRun, showCommand, hv, hc, hu, hr, hl, hcmd, hlu, hago, hcc]
  · intro args env c hv hc hu hr hl hcmd hlu
    cases hcc : args.flag_clear_cache <;>
      simp [mainRun, showCommand, hv, hc, hu, hr, hl, hcmd, hlu, hcc]

/-- C5 witness: a concrete lookup against a cache one second past the
threshold — the stale warning is printed and the lookup proceeds. -/
theorem staleness_enforced_by_caller_witness :
    mainRun argsCmd envStale =
      pageLookup envStale "tar"
        ((if argsCmd.flag_clear_cache then ["Successfully deleted cache."] else []) ++
         [staleWarning1, staleWarning2]) :=
  staleness_enforced_by_caller.2.2.1 argsCmd envStale "tar" 2592001 rfl rfl rfl rfl
    rfl rfl rfl (by decide)

theorem pageLookup_exit (env : Env) (c : String) (log : List String) :
    (pageLookup env c log).2 = 0 ∨ (pageLookup env c log).2 = 1 := by
  unfold pageLookup
  cases h : env.find_page c with
  | none => simp
  | some p => cases h2 : env.print_page p <;> simp [h2]

theorem showCommand_exit (fu : Bool) (env : Env) (c : String) (log : List String) :
    (showCommand fu env c log).2 = 0 ∨ (showCommand fu env c log).2 = 1 := by
  unfold showCommand
  cases fu with
  | true => simpa using pageLookup_exit env c log
  | false =>
    simp only [Bool.not_false, if_true]
    cases h : env.last_update with
    | none => simp
    | some ago =>
      by_cases hg : ago > MAX_CACHE_AGE
      · simpa [hg] using pageLookup_exit env c (log ++ [staleWarning1, staleWarning2])
      · simpa [hg] using pageLookup_exit env c log

theorem mainRun_exit (args : Args) (env : Env) :
    (mainRun args env).2 = 0 ∨ (mainRun args env).2 = 1 := by
  unfold mainRun
  by_cases hv : args.flag_version = true
  · simp [hv]
  · simp only [hv, if_false, Bool.false_eq_true, ite_false]
    cases h1 : (if args.flag_clear_cache then env.clear_result else Except.ok ()) with
    | error msg => simp
    | ok u =>
      cases h2 : (if args.flag_update then env.update_result else Except.ok ()) with
      | error msg => simp
      | ok u2 =>
        cases h3 : args.flag_render with
        | some file => cases h4 : env.print_page file <;> simp [h4]
        | none =>
          by_cases h5 : args.flag_list = true
          · simp [h5]
          · simp only [h5, if_false, Bool.false_eq_true, ite_false]
            cases h6 : args.arg_command with
            | some c => exact showCommand_exit args.flag_update env c _
            | none => by_cases h7 : (!(args.flag_update || args.flag_clear_cache)) = true <;>
                simp [h7]

/-- C4: the process exit status is always 0 or 1, it is 1 on every
reported failure — a render file that cannot be opened, a command whose
page is not in the cache, a failed clear or update, and an invocation
with no actionable flag or command — and it is 0 on the success paths
(version, successful render, page found and printed, pass-through
clear/update with no command). -/
theorem main_exit_codes :
    (∀ (args : Args) (env : Env),
      (mainRun args env).2 = 0 ∨ (mainRun args env).2 = 1) ∧
    (∀ (args : Args) (env : Env) (file msg : String),
      args.flag_version = false → args.flag_render = some file →
      env.print_page file = Except.error msg → (mainRun args env).2 = 1) ∧
    (∀ (args : Args) (env : Env) (c : String),
      args.flag_version = false → args.flag_render = none →
      args.flag_list = false → args.arg_command = some c →
      env.find_page c = none → (mainRun args env).2 = 1) ∧
    (∀ (args : Args) (env : Env) (msg : String),
      args.flag_version = false → args.flag_clear_cache = true →
      env.clear_result = Except.error msg → (mainRun args env).2 = 1) ∧
    (∀ (args : Args) (env : Env) (msg : String),
      args.flag_version = false → args.flag_update = true →
      env.update_result = Except.error msg → (mainRun args env).2 = 1) ∧
    (∀ (args : Args) (env : Env),
      args.flag_version = false → args.flag_clear_cache = false →
      args.flag_update = false → args.flag_render = none →
      args.flag_list = false → args.arg_command = none →
      (mainRun args env).2 = 1) ∧
    (∀ (args : Args) (env : Env),
      args.flag_version = true → (mainRun args env).2 = 0) ∧
    (∀ (args : Args) (env : Env) (file : String),
      args.flag_version = false → env.clear_result = Except.ok () →
      env.update_result = Except.ok () → args.flag_render = some file →
      env.print_page file = Except.ok () → (mainRun args env).2 = 0) ∧
    (∀ (args : Args) (env : Env) (c p : String) (ago : Int),
      args.flag_version = false → env.clear_result = Except.ok () →
      env.update_result = Except.ok () → args.flag_render = none →
      args.flag_list = false → args.arg_command = some c →
      env.last_update = some ago → env.find_page c = some p →
      env.print_page p = Except.ok () → (mainRun args env).2 = 0) ∧
    (∀ (args : Args) (env : Env),
      args.flag_version = false → env.clear_result = Except.ok () →
      env.update_result = Except.ok () → args.flag_render = none →
      args.flag_list = false → args.arg_command = none →
      (args.flag_update = true ∨ args.flag_clear_cache = true) →
      (mainRun args env).2 = 0) := by
  refine ⟨mainRun_exit, ?_, ?_, ?_, ?_, ?_, ?_, ?_, ?_, ?_⟩
  · intro args env file msg hv hr hp
    cases hcc : args.flag_clear_cache <;> cases huu : args.flag_update <;>
      cases h1 : env.clear_result <;> cases h2 : env.update_result <;>
        simp [mainRun, hv, hr, hp, hcc, huu, h1, h2]
  · intro args env c hv hr hl hcmd hfp
    cases hcc : args.flag_clear_cache <;> cases huu : args.flag_update <;>
      cases h1 : env.clear_result <;> cases h2 : env.update_result <;>
        cases h3 : env.last_update <;>
          simp [mainRun, showCommand, pageLookup, hv, hr, hl, hcmd, hfp,
            hcc, huu, h1, h2, h3, apply_ite]
  · intro args env msg hv hcc hc
    cases huu : args.flag_update <;> simp [mainRun, hv, hcc, hc, huu]
  · intro args env msg hv huu hu
    cases hcc : args.flag_clear_cache <;> cases h1 : env.clear_result <;>
      simp [mainRun, hv, huu, hu, hcc, h1]
  · intro args env hv hcc huu hr hl hcmd
    simp [mainRun, hv, hcc, huu, hr, hl, hcmd]
  · intro args env hv
    simp [mainRun, hv]
  · intro args env file hv hc hu hr hp
    cases hcc : args.flag_clear_cache <;> cases huu : args.flag_update <;>
      simp [mainRun, hv, hc, hu, hr, hp, hcc, huu]
  · intro args env c p ago hv hc hu hr hl hcmd hlu hfp hp
    cases hcc : args.flag_clear_cache <;> cases huu : args.flag_update <;>
      simp [mainRun, showCommand, pageLookup, hv, hc, hu, hr, hl, hcmd, hlu,
        hfp, hp, hcc, huu, apply_ite]
  · intro args env hv hc hu hr hl hcmd hflag
    rcases hflag with huu | hcc
    · cases hcc : args.flag_clear_cache <;>
        simp [mainRun, hv, hc, hu, hr, hl, hcmd, huu, hcc]
    · cases huu : args.flag_update <;>
        simp [mainRun, hv, hc, hu, hr, hl, hcmd, huu, hcc]

/-- C4 witness: a bare `tldr` invocation with no actionable flag or
command exits with status 1. -/
theorem main_exit_codes_witness : (mainRun argsNone envOk).2 = 1 :=
  main_exit_codes.2.2.2.2.2.1 argsNone envOk rfl rfl rfl rfl rfl rfl

end Tealdeer
